import Mathlib

/-!
# Verification of the bezier-rs wasm binding (`bezier.rs`)

Shallow embedding of `website/other/bezier-rs-demos/wasm/src/bezier.rs`, the
wasm-bindgen binding around the `bezier_rs` curve engine.  The binding source is
embedded faithfully; the `bezier_rs` engine and the `svg_drawing` module are part
of the repository but outside the provided sources, so the engine operations a
claim depends on are modelled from the specification (each such definition says
so in its doc comment), and engine routines whose behaviour no claim constrains
are taken as parameters of the binding functions that call them.

Machine doubles (`f64`) are idealised as exact numbers: `ℚ` where the claims are
structural and decidable, `ℝ` where the mathematics needs square roots or
trigonometric functions.
-/

namespace BezierWasm

/-- A 2D point, the embedding of glam's `DVec2` (and of the binding's `Point`,
which holds the same two doubles). -/
@[ext]
structure Vec2 (α : Type) where
  x : α
  y : α
deriving DecidableEq, Repr

/-- The engine's `Bezier` curve: a tagged variant holding 2, 3 or 4 control
points (spec §3: point count exactly matches the variant). -/
inductive Bezier (α : Type) where
  | linear (p0 p1 : Vec2 α)
  | quadratic (p0 p1 p2 : Vec2 α)
  | cubic (p0 p1 p2 p3 : Vec2 α)
deriving DecidableEq, Repr

namespace Bezier

/-- The ordered control points of a curve (the engine's `get_points`). -/
def get_points {α : Type} : Bezier α → List (Vec2 α)
  | .linear p0 p1 => [p0, p1]
  | .quadratic p0 p1 p2 => [p0, p1, p2]
  | .cubic p0 p1 p2 p3 => [p0, p1, p2, p3]

/-- The degree of the curve: 1, 2 or 3. -/
def degree {α : Type} : Bezier α → Nat
  | .linear _ _ => 1
  | .quadratic _ _ _ => 2
  | .cubic _ _ _ _ => 3

end Bezier

/-- Linear interpolation of two points, one de Casteljau step
(spec §4.2: repeated linear interpolation between consecutive control points). -/
def vlerp {α : Type} [CommRing α] (t : α) (p q : Vec2 α) : Vec2 α :=
  ⟨(1 - t) * p.x + t * q.x, (1 - t) * p.y + t * q.y⟩

/-- Modelled from the spec: the engine's `evaluate(t)` — de Casteljau's
algorithm, `degree` rounds of linear interpolation (spec §4.2).  The engine
source is outside the provided tree. -/
def Bezier.evaluate {α : Type} [CommRing α] : Bezier α → α → Vec2 α
  | .linear p0 p1, t => vlerp t p0 p1
  | .quadratic p0 p1 p2, t => vlerp t (vlerp t p0 p1) (vlerp t p1 p2)
  | .cubic p0 p1 p2 p3, t =>
      vlerp t (vlerp t (vlerp t p0 p1) (vlerp t p1 p2))
        (vlerp t (vlerp t p1 p2) (vlerp t p2 p3))

/-- Modelled from the spec: the engine's `split(t)` — de Casteljau subdivision
at `t`, returning two curves of the same degree as the original (spec §4.5).
The engine source is outside the provided tree. -/
def Bezier.splitAt {α : Type} [CommRing α] : Bezier α → α → Bezier α × Bezier α
  | .linear p0 p1, t =>
      (.linear p0 (vlerp t p0 p1), .linear (vlerp t p0 p1) p1)
  | .quadratic p0 p1 p2, t =>
      (.quadratic p0 (vlerp t p0 p1) (vlerp t (vlerp t p0 p1) (vlerp t p1 p2)),
       .quadratic (vlerp t (vlerp t p0 p1) (vlerp t p1 p2)) (vlerp t p1 p2) p2)
  | .cubic p0 p1 p2 p3, t =>
      (.cubic p0 (vlerp t p0 p1) (vlerp t (vlerp t p0 p1) (vlerp t p1 p2))
         (vlerp t (vlerp t (vlerp t p0 p1) (vlerp t p1 p2))
           (vlerp t (vlerp t p1 p2) (vlerp t p2 p3))),
       .cubic (vlerp t (vlerp t (vlerp t p0 p1) (vlerp t p1 p2))
           (vlerp t (vlerp t p1 p2) (vlerp t p2 p3)))
         (vlerp t (vlerp t p1 p2) (vlerp t p2 p3)) (vlerp t p2 p3) p3)

/-- Modelled from the spec: the engine's `derivative()` — the hodograph curve,
one degree lower; `none` when the hodograph would be a lone point, which the
curve type cannot represent (spec §4.2: "returns the hodograph curve
(degree − 1)", with the degenerate case signalled by the none sentinel,
spec §7).  The engine source is outside the provided tree. -/
def Bezier.derivativeCurve {α : Type} [CommRing α] : Bezier α → Option (Bezier α)
  | .linear _ _ => none
  | .quadratic p0 p1 p2 =>
      some (.linear ⟨2 * (p1.x - p0.x), 2 * (p1.y - p0.y)⟩
        ⟨2 * (p2.x - p1.x), 2 * (p2.y - p1.y)⟩)
  | .cubic p0 p1 p2 p3 =>
      some (.quadratic ⟨3 * (p1.x - p0.x), 3 * (p1.y - p0.y)⟩
        ⟨3 * (p2.x - p1.x), 3 * (p2.y - p1.y)⟩
        ⟨3 * (p3.x - p2.x), 3 * (p3.y - p2.y)⟩)

/-- The wrapper of the engine `Bezier` handed to JS (`struct WasmBezier(Bezier)`,
bezier.rs line 35). -/
structure WasmBezier (α : Type) where
  inner : Bezier α
deriving DecidableEq

/-- The binding constructor `WasmBezier::new_linear` (bezier.rs lines 67–70).
The incoming JS value is modelled as the list of points it deserializes to;
`into_serde::<[DVec2; 2]>` succeeds exactly when the list has 2 entries, and the
`unwrap` panic on malformed input is modelled as `none`. -/
def WasmBezier.new_linear (js_points : List (Vec2 ℚ)) : Option (WasmBezier ℚ) :=
  match js_points with
  | [p0, p1] => some ⟨.linear p0 p1⟩
  | _ => none

/-- The binding constructor `WasmBezier::new_quadratic` (bezier.rs lines 73–76);
`into_serde::<[DVec2; 3]>` succeeds exactly on 3-point lists. -/
def WasmBezier.new_quadratic (js_points : List (Vec2 ℚ)) : Option (WasmBezier ℚ) :=
  match js_points with
  | [p0, p1, p2] => some ⟨.quadratic p0 p1 p2⟩
  | _ => none

/-- The binding constructor `WasmBezier::new_cubic` (bezier.rs lines 79–82);
`into_serde::<[DVec2; 4]>` succeeds exactly on 4-point lists. -/
def WasmBezier.new_cubic (js_points : List (Vec2 ℚ)) : Option (WasmBezier ℚ) :=
  match js_points with
  | [p0, p1, p2, p3] => some ⟨.cubic p0 p1 p2 p3⟩
  | _ => none

/-- A JSON / JavaScript value tree.  It models both serde's data model and the
`JsValue` handed back to JS by wasm-bindgen (a JS value is a string, a number,
an array or an object).  Numeric formatting of `f64` is idealised by printing
the exact rational. -/
inductive Json where
  | str (s : String)
  | num (q : ℚ)
  | arr (elems : List Json)
  | obj (fields : List (String × Json))

mutual

/-- The JSON text of a value, the embedding of `serde_json::to_string`. -/
def Json.print : Json → String
  | .str s => "\"" ++ s ++ "\""
  | .num q => toString q
  | .arr l => "[" ++ Json.printList l ++ "]"
  | .obj l => "\x7b" ++ Json.printFields l ++ "\x7d"

/-- Comma-separated JSON texts of array elements. -/
def Json.printList : List Json → String
  | [] => ""
  | [j] => Json.print j
  | j :: rest => Json.print j ++ "," ++ Json.printList rest

/-- Comma-separated `"key":value` texts of object fields. -/
def Json.printFields : List (String × Json) → String
  | [] => ""
  | [kj] => "\"" ++ kj.1 ++ "\":" ++ Json.print kj.2
  | kj :: rest => "\"" ++ kj.1 ++ "\":" ++ Json.print kj.2 ++ "," ++ Json.printFields rest

end

/-- The JS-side value type; identified with the JSON data model. -/
abbrev JsValue := Json

/-- `JsValue::from_serde`: builds the JS value corresponding to a serde value.
On a serde tree this is the identity embedding; in particular, applied to a Rust
`String` it yields the JS string holding that text. -/
def JsValue.from_serde (j : Json) : JsValue := j

/-- The binding's `to_js_value` helper (bezier.rs lines 48–50): it first
serializes the data to its JSON text with `serde_json::to_string`, then converts
that string itself to a `JsValue` — so the result is always a JS string. -/
def to_js_value (data : Json) : JsValue :=
  JsValue.from_serde (Json.str (Json.print data))

/-- serde serialization of the binding's `Point` struct (bezier.rs lines 17–21). -/
def jsonOfPoint (p : Vec2 ℚ) : Json :=
  .obj [("x", .num p.x), ("y", .num p.y)]

/-- serde serialization of a `[f64; 2]` parameter pair. -/
def jsonOfPair (pr : ℚ × ℚ) : Json :=
  .arr [.num pr.1, .num pr.2]

/-- The binding's `CircleSector` struct (bezier.rs lines 7–15): a fitted arc
with its serde field renames `startAngle` / `endAngle`. -/
structure CircleSector where
  center : Vec2 ℚ
  radius : ℚ
  start_angle : ℚ
  end_angle : ℚ
deriving DecidableEq

/-- serde serialization of `CircleSector`, with the renamed angle keys
(bezier.rs lines 7–15). -/
def jsonOfCircleSector (cs : CircleSector) : Json :=
  .obj [("center", jsonOfPoint cs.center), ("radius", .num cs.radius),
    ("startAngle", .num cs.start_angle), ("endAngle", .num cs.end_angle)]

/-- Modelled from the spec: `SVG_OPEN_TAG` from the `svg_drawing` module, which
is outside the provided tree (the rendering layer, spec §1).  Only its leading
characters matter to the proofs. -/
def SVG_OPEN_TAG : String :=
  "<svg xmlns=\"http://www.w3.org/2000/svg\" width=\"200\" height=\"200\">"

/-- Modelled from the spec: `SVG_CLOSE_TAG` from the `svg_drawing` module. -/
def SVG_CLOSE_TAG : String := "</svg>"

/-- The binding's `wrap_svg_tag` (bezier.rs lines 60–62): wraps drawn contents
in the SVG open/close tags. -/
def wrap_svg_tag (contents : String) : String :=
  SVG_OPEN_TAG ++ contents ++ SVG_CLOSE_TAG

/-- The coordinate text of one point inside an SVG path string. -/
def svgPointText (p : Vec2 ℚ) : String :=
  toString p.x ++ "," ++ toString p.y

/-- Modelled from the spec: the path string the engine's `to_svg` writes for a
curve (the rendering layer is outside the provided tree and "not specified
further beyond call contracts", spec §1); modelled as a single SVG path element
listing the control points.  Only the fact that it is a path element — not an
`<svg>` document — matters to the proofs. -/
def bezierSvgPath (b : Bezier ℚ) : String :=
  "<path d=\"" ++ (String.intercalate " " (b.get_points.map svgPointText) ++ "\"/>")

/-- The binding's private `get_bezier_path` (bezier.rs lines 132–142): the
engine-rendered path string of the wrapped curve, without SVG tags. -/
def WasmBezier.get_bezier_path (w : WasmBezier ℚ) : String :=
  bezierSvgPath w.inner

/-- The binding's `derivative()` drawing method (bezier.rs lines 177–194):
if the engine's `derivative()` is the none sentinel the original path string is
returned as-is — this early return is the one drawing result not passed through
`wrap_svg_tag`; otherwise the derivative curve is drawn over the original and
the whole is wrapped. -/
def WasmBezier.derivative (w : WasmBezier ℚ) : String :=
  let bezier := w.get_bezier_path
  match w.inner.derivativeCurve with
  | none => bezier
  | some d => wrap_svg_tag (bezier ++ bezierSvgPath d)

/-- One level of de Casteljau interpolation over a list of points. -/
def deCasteljauStep {α : Type} [CommRing α] (t : α) : List (Vec2 α) → List (Vec2 α)
  | p :: q :: rest => vlerp t p q :: deCasteljauStep t (q :: rest)
  | _ => []

/-- The tower of interpolation levels, outermost first. -/
def deCasteljauTower {α : Type} [CommRing α] (t : α) :
    Nat → List (Vec2 α) → List (List (Vec2 α))
  | 0, _ => []
  | n + 1, pts => pts :: deCasteljauTower t n (deCasteljauStep t pts)

/-- Modelled from the spec: the engine's `de_casteljau_points(t)` — every
intermediate interpolation level produced while evaluating at `t`, ordered
outer-to-inner, each level one point shorter than the previous (spec §4.2).
The engine source is outside the provided tree. -/
def Bezier.de_casteljau_points {α : Type} [CommRing α] (b : Bezier α) (t : α) :
    List (List (Vec2 α)) :=
  deCasteljauTower t b.get_points.length b.get_points

/-- The binding's `get_points` (bezier.rs lines 127–130): the control points as
`Point`s, serialized through `to_js_value`. -/
def WasmBezier.get_points (w : WasmBezier ℚ) : JsValue :=
  to_js_value (.arr (w.inner.get_points.map jsonOfPoint))

/-- The binding's `evaluate_value(t)` (bezier.rs lines 154–157): the evaluated
point, serialized through `to_js_value`. -/
def WasmBezier.evaluate_value (w : WasmBezier ℚ) (t : ℚ) : JsValue :=
  to_js_value (jsonOfPoint (w.inner.evaluate t))

/-- The binding's `de_casteljau_points(t)` (bezier.rs lines 357–365): the
interpolation levels, serialized through `to_js_value`. -/
def WasmBezier.de_casteljau_points (w : WasmBezier ℚ) (t : ℚ) : JsValue :=
  to_js_value (.arr ((w.inner.de_casteljau_points t).map
    (fun level => .arr (level.map jsonOfPoint))))

/-- Modelled from the spec: the engine's `self_intersections(error)` — pairs of
parameter values at which the curve crosses itself; empty for every linear or
quadratic curve, which cannot self-cross (spec §4.6, §8); for cubic curves the
answer comes from the recursive subdivision engine (spec §4.4), whose source is
outside the provided tree and which no claim constrains, so it is abstracted as
the `cubicSelf` parameter. -/
def Bezier.self_intersections (cubicSelf : Bezier ℚ → Option ℚ → List (ℚ × ℚ))
    (b : Bezier ℚ) (error : Option ℚ) : List (ℚ × ℚ) :=
  match b with
  | .cubic _ _ _ _ => cubicSelf b error
  | _ => []

/-- The binding's `intersect_self(error)` (bezier.rs lines 394–397): the
engine's self-intersection pairs at tolerance `Some(error)`, serialized through
`to_js_value`. -/
def WasmBezier.intersect_self (cubicSelf : Bezier ℚ → Option ℚ → List (ℚ × ℚ))
    (w : WasmBezier ℚ) (error : ℚ) : JsValue :=
  to_js_value (.arr ((Bezier.self_intersections cubicSelf w.inner (some error)).map
    jsonOfPair))

/-- The engine's arc-fitting strategy enum (spec §3). -/
inductive ArcStrategy where
  | Automatic
  | FavorLargerArcs
  | FavorCorrectness
deriving DecidableEq

/-- The binding's `WasmMaximizeArcs` enum (bezier.rs lines 24–28). -/
inductive WasmMaximizeArcs where
  | Automatic
  | On
  | Off
deriving DecidableEq

/-- The engine's `ArcsOptions` configuration struct (spec §3): error tolerance,
iteration bound and arc-fitting strategy. -/
structure ArcsOptions where
  error : ℚ
  max_iterations : Nat
  strategy : ArcStrategy
deriving DecidableEq

/-- The binding's `convert_wasm_maximize_arcs` (bezier.rs lines 52–58). -/
def convert_wasm_maximize_arcs : WasmMaximizeArcs → ArcStrategy
  | .Automatic => .Automatic
  | .On => .FavorLargerArcs
  | .Off => .FavorCorrectness

/-- The binding's `arcs(error, max_iterations, maximize_arcs)` (bezier.rs lines
446–464).  The engine's `arcs` algorithm is outside the provided tree and no
claim constrains its output, so it is abstracted as the `engineArcs` parameter;
the binding builds the options struct from exactly the caller's arguments and
the converted strategy, maps each returned sector to a `CircleSector`, and
serializes through `to_js_value`. -/
def WasmBezier.arcs (engineArcs : Bezier ℚ → ArcsOptions → List CircleSector)
    (w : WasmBezier ℚ) (error : ℚ) (max_iterations : Nat)
    (maximize_arcs : WasmMaximizeArcs) : JsValue :=
  let strategy := convert_wasm_maximize_arcs maximize_arcs
  let options : ArcsOptions := ⟨error, max_iterations, strategy⟩
  to_js_value (.arr ((engineArcs w.inner options).map jsonOfCircleSector))

/-- The binding's private `intersect` helper (bezier.rs lines 371–373): forwards
the other curve and the optional error tolerance to the engine's
`intersections`, whose source is outside the provided tree and which no claim
constrains, so it is abstracted as the `engineIntersections` parameter. -/
def WasmBezier.intersect (engineIntersections : Bezier ℚ → Bezier ℚ → Option ℚ → List ℚ)
    (w : WasmBezier ℚ) (curve : Bezier ℚ) (error : Option ℚ) : List ℚ :=
  engineIntersections w.inner curve error

/-- The binding's `intersect_line_segment` (bezier.rs lines 375–379): builds the
line from the two deserialized points and intersects with `None` as the error
tolerance.  Malformed input (`into_serde::<[DVec2; 2]>` failure + `unwrap`) is
modelled as `none`. -/
def WasmBezier.intersect_line_segment
    (engineIntersections : Bezier ℚ → Bezier ℚ → Option ℚ → List ℚ)
    (w : WasmBezier ℚ) (js_points : List (Vec2 ℚ)) : Option (List ℚ) :=
  match js_points with
  | [p0, p1] =>
      some (WasmBezier.intersect engineIntersections w (.linear p0 p1) none)
  | _ => none

/-- The binding's `intersect_quadratic_segment` (bezier.rs lines 381–385):
builds the quadratic from the three deserialized points and intersects with
`Some(error)`. -/
def WasmBezier.intersect_quadratic_segment
    (engineIntersections : Bezier ℚ → Bezier ℚ → Option ℚ → List ℚ)
    (w : WasmBezier ℚ) (js_points : List (Vec2 ℚ)) (error : ℚ) : Option (List ℚ) :=
  match js_points with
  | [p0, p1, p2] =>
      some (WasmBezier.intersect engineIntersections w (.quadratic p0 p1 p2) (some error))
  | _ => none

/-- The binding's `intersect_cubic_segment` (bezier.rs lines 387–391): builds
the cubic from the four deserialized points and intersects with `Some(error)`. -/
def WasmBezier.intersect_cubic_segment
    (engineIntersections : Bezier ℚ → Bezier ℚ → Option ℚ → List ℚ)
    (w : WasmBezier ℚ) (js_points : List (Vec2 ℚ)) (error : ℚ) : Option (List ℚ) :=
  match js_points with
  | [p0, p1, p2, p3] =>
      some (WasmBezier.intersect engineIntersections w (.cubic p0 p1 p2 p3) (some error))
  | _ => none

/-- The coefficient vectors `(a, b, c)` of the curve's first derivative, per
component: `B'(t) = a·t² + b·t + c` (spec §4.3: derivative components are
degree ≤ 2 polynomials).  Expanded from the hodograph control points. -/
def Bezier.derivCoeffs {α : Type} [CommRing α] : Bezier α → Vec2 α × Vec2 α × Vec2 α
  | .linear p0 p1 =>
      (⟨0, 0⟩, ⟨0, 0⟩, ⟨p1.x - p0.x, p1.y - p0.y⟩)
  | .quadratic p0 p1 p2 =>
      (⟨0, 0⟩,
       ⟨2 * (p0.x - 2 * p1.x + p2.x), 2 * (p0.y - 2 * p1.y + p2.y)⟩,
       ⟨2 * (p1.x - p0.x), 2 * (p1.y - p0.y)⟩)
  | .cubic p0 p1 p2 p3 =>
      (⟨3 * (-p0.x + 3 * p1.x - 3 * p2.x + p3.x), 3 * (-p0.y + 3 * p1.y - 3 * p2.y + p3.y)⟩,
       ⟨6 * (p0.x - 2 * p1.x + p2.x), 6 * (p0.y - 2 * p1.y + p2.y)⟩,
       ⟨3 * (p1.x - p0.x), 3 * (p1.y - p0.y)⟩)

/-- The first derivative of the parametric curve at `t` (the hodograph
evaluated at `t`). -/
def Bezier.deriv1 {α : Type} [CommRing α] (b : Bezier α) (t : α) : Vec2 α :=
  let abc := b.derivCoeffs
  ⟨abc.1.x * t ^ 2 + abc.2.1.x * t + abc.2.2.x,
   abc.1.y * t ^ 2 + abc.2.1.y * t + abc.2.2.y⟩

/-- The second derivative of the parametric curve at `t`. -/
def Bezier.deriv2 {α : Type} [CommRing α] (b : Bezier α) (t : α) : Vec2 α :=
  let abc := b.derivCoeffs
  ⟨2 * abc.1.x * t + abc.2.1.x, 2 * abc.1.y * t + abc.2.1.y⟩

/-- The 2D cross product of two vectors. -/
def crossV {α : Type} [CommRing α] (u v : Vec2 α) : α :=
  u.x * v.y - u.y * v.x

/-- The squared Euclidean norm of a vector. -/
def normSq {α : Type} [CommRing α] (v : Vec2 α) : α :=
  v.x * v.x + v.y * v.y

/-- Modelled from the spec: the engine's `curvature(t)` — signed curvature
`cross(first derivative, second derivative) / |first derivative|³` (spec §4.2).
The engine source is outside the provided tree. -/
noncomputable def Bezier.curvature (b : Bezier ℝ) (t : ℝ) : ℝ :=
  crossV (b.deriv1 t) (b.deriv2 t) / Real.sqrt (normSq (b.deriv1 t)) ^ 3

/-- The radius computation inside the binding's `curvature(t)` drawing method
(bezier.rs line 231): `let radius = 1. / self.0.curvature(t);` — the division is
performed unconditionally, with no zero-divisor guard; the rest of the method
only draws with this radius. -/
noncomputable def WasmBezier.curvatureRadius (w : WasmBezier ℝ) (t : ℝ) : ℝ :=
  1 / w.inner.curvature t

/-- Rotation of a point by `angle` radians about the origin. -/
noncomputable def rotatePoint (angle : ℝ) (p : Vec2 ℝ) : Vec2 ℝ :=
  ⟨Real.cos angle * p.x - Real.sin angle * p.y,
   Real.sin angle * p.x + Real.cos angle * p.y⟩

/-- Apply a function to every control point. -/
def Bezier.mapPoints {α : Type} (f : Vec2 α → Vec2 α) : Bezier α → Bezier α
  | .linear p0 p1 => .linear (f p0) (f p1)
  | .quadratic p0 p1 p2 => .quadratic (f p0) (f p1) (f p2)
  | .cubic p0 p1 p2 p3 => .cubic (f p0) (f p1) (f p2) (f p3)

/-- Modelled from the spec: the engine's `rotate(angle)` — a new curve with
every control point rotated by `angle` radians about the origin (spec §4.5).
The engine source is outside the provided tree. -/
noncomputable def Bezier.rotate (b : Bezier ℝ) (angle : ℝ) : Bezier ℝ :=
  b.mapPoints (rotatePoint angle)

/-- The binding's `rotate(angle)` (bezier.rs lines 367–369).  The Rust method
borrows its receiver immutably (`&self`) and returns a fresh `WasmBezier`; the
call is modelled as returning the pair (receiver after the call, new curve), so
that the frame condition — the receiver is unchanged — is part of the model. -/
noncomputable def WasmBezier.rotate (w : WasmBezier ℝ) (angle : ℝ) :
    WasmBezier ℝ × WasmBezier ℝ :=
  (w, ⟨w.inner.rotate angle⟩)

/-- Modelled from the spec: the root finder's closed-form solving of a
polynomial `a·t² + b·t + c = 0` of degree ≤ 2 (spec §4.3: "closed-form
quadratic/linear solving").  The engine source is outside the provided tree. -/
noncomputable def solveQuadratic (a b c : ℝ) : List ℝ :=
  if a = 0 then
    if b = 0 then []
    else [-c / b]
  else if discrim a b c < 0 then []
  else
    [(-b + Real.sqrt (discrim a b c)) / (2 * a),
     (-b - Real.sqrt (discrim a b c)) / (2 * a)]

/-- Modelled from the spec: the engine's `local_extrema()` — the roots in
`[0, 1]` of each derivative component, split per axis: X roots first, Y roots
second (spec §4.3).  The engine source is outside the provided tree. -/
noncomputable def Bezier.local_extrema (b : Bezier ℝ) : List ℝ × List ℝ :=
  let abc := b.derivCoeffs
  ((solveQuadratic abc.1.x abc.2.1.x abc.2.2.x).filter (fun t => 0 ≤ t ∧ t ≤ 1),
   (solveQuadratic abc.1.y abc.2.1.y abc.2.2.y).filter (fun t => 0 ≤ t ∧ t ≤ 1))

/-! ## Theorems -/

/-- C1: for every input array whose point count does not match the
constructor's expected count (2 for `new_linear`, 3 for `new_quadratic`, 4 for
`new_cubic`), the binding constructor rejects the malformed input before
calling into the engine — the result is `none` (the `unwrap` panic on the
failed deserialization), exactly when the count is wrong, and no curve, partial
or otherwise, is produced. -/
theorem new_constructors_reject_wrong_point_count (pts : List (Vec2 ℚ)) :
    (WasmBezier.new_linear pts = none ↔ pts.length ≠ 2) ∧
    (WasmBezier.new_quadratic pts = none ↔ pts.length ≠ 3) ∧
    (WasmBezier.new_cubic pts = none ↔ pts.length ≠ 4) := by
  refine ⟨?_, ?_, ?_⟩ <;>
    rcases pts with _ | ⟨a, _ | ⟨b, _ | ⟨c, _ | ⟨d, _ | ⟨e, rest⟩⟩⟩⟩⟩ <;>
      simp [WasmBezier.new_linear, WasmBezier.new_quadratic, WasmBezier.new_cubic]

/-- C5: `arcs(error, max_iterations, maximize_arcs)` hands the engine an
`ArcsOptions` holding exactly the caller-supplied error tolerance and iteration
bound, with the strategy obtained by mapping `Automatic ↦ Automatic`,
`On ↦ FavorLargerArcs`, `Off ↦ FavorCorrectness`; no other option values are
introduced. -/
theorem arcs_builds_exact_options
    (engineArcs : Bezier ℚ → ArcsOptions → List CircleSector) (w : WasmBezier ℚ)
    (error : ℚ) (max_iterations : Nat) (m : WasmMaximizeArcs) :
    WasmBezier.arcs engineArcs w error max_iterations m =
      to_js_value (.arr ((engineArcs w.inner
        ⟨error, max_iterations, convert_wasm_maximize_arcs m⟩).map jsonOfCircleSector)) ∧
    convert_wasm_maximize_arcs .Automatic = .Automatic ∧
    convert_wasm_maximize_arcs .On = .FavorLargerArcs ∧
    convert_wasm_maximize_arcs .Off = .FavorCorrectness :=
  ⟨rfl, rfl, rfl, rfl⟩

/-- C10: `intersect_line_segment` always invokes the engine's `intersections`
with `none` as the error tolerance (the engine default), whereas
`intersect_quadratic_segment` and `intersect_cubic_segment` forward the
caller-supplied tolerance as `some error`; the line-segment variant takes no
tolerance argument at all, so its caller cannot influence it. -/
theorem intersect_segment_error_forwarding
    (f : Bezier ℚ → Bezier ℚ → Option ℚ → List ℚ) (w : WasmBezier ℚ)
    (p0 p1 p2 p3 : Vec2 ℚ) (error : ℚ) :
    WasmBezier.intersect_line_segment f w [p0, p1] =
      some (f w.inner (.linear p0 p1) none) ∧
    WasmBezier.intersect_quadratic_segment f w [p0, p1, p2] error =
      some (f w.inner (.quadratic p0 p1 p2) (some error)) ∧
    WasmBezier.intersect_cubic_segment f w [p0, p1, p2, p3] error =
      some (f w.inner (.cubic p0 p1 p2 p3) (some error)) :=
  ⟨rfl, rfl, rfl⟩

/-- C6: for every quadratic curve and every error tolerance — and whatever the
cubic-case subdivision routine does — the engine's `self_intersections` is the
empty list of parameter pairs, and the binding's `intersect_self` serializes
that empty list; in general the result type is a sequence of parameter pairs. -/
theorem intersect_self_quadratic_empty
    (cubicSelf : Bezier ℚ → Option ℚ → List (ℚ × ℚ))
    (p0 p1 p2 : Vec2 ℚ) (error : ℚ) :
    Bezier.self_intersections cubicSelf (.quadratic p0 p1 p2) (some error) = [] ∧
    WasmBezier.intersect_self cubicSelf ⟨.quadratic p0 p1 p2⟩ error =
      to_js_value (Json.arr []) :=
  ⟨rfl, rfl⟩

/-- C9: `to_js_value` first serializes its data to the JSON text and then
converts that string itself into the `JsValue`, so every `JsValue`-returning
binding method (`get_points`, `evaluate_value`, `de_casteljau_points`,
`intersect_self`, `arcs`) returns a JS string holding the JSON serialization of
its data — never a structured array or object value. -/
theorem js_value_methods_return_serialized_string
    (w : WasmBezier ℚ) (t error : ℚ)
    (cubicSelf : Bezier ℚ → Option ℚ → List (ℚ × ℚ))
    (engineArcs : Bezier ℚ → ArcsOptions → List CircleSector)
    (e : ℚ) (n : Nat) (m : WasmMaximizeArcs) :
    (∀ data : Json, to_js_value data = Json.str (Json.print data)) ∧
    (∀ (data : Json) (l : List Json), to_js_value data ≠ Json.arr l) ∧
    (∀ (data : Json) (fl : List (String × Json)), to_js_value data ≠ Json.obj fl) ∧
    WasmBezier.get_points w =
      Json.str (Json.print (.arr (w.inner.get_points.map jsonOfPoint))) ∧
    WasmBezier.evaluate_value w t =
      Json.str (Json.print (jsonOfPoint (w.inner.evaluate t))) ∧
    WasmBezier.de_casteljau_points w t =
      Json.str (Json.print (.arr ((w.inner.de_casteljau_points t).map
        (fun level => .arr (level.map jsonOfPoint))))) ∧
    WasmBezier.intersect_self cubicSelf w error =
      Json.str (Json.print (.arr
        ((Bezier.self_intersections cubicSelf w.inner (some error)).map jsonOfPair))) ∧
    WasmBezier.arcs engineArcs w e n m =
      Json.str (Json.print (.arr ((engineArcs w.inner
        ⟨e, n, convert_wasm_maximize_arcs m⟩).map jsonOfCircleSector))) :=
  ⟨fun _ => rfl, fun _ _ h => Json.noConfusion h, fun _ _ h => Json.noConfusion h,
    rfl, rfl, rfl, rfl, rfl⟩

/-- C8: `rotate(angle)` is pure with respect to its receiver: the receiver
after the call is the very curve passed in, and the returned curve's control
points are the original control points, in order, each rotated by `angle`
radians about the origin. -/
theorem rotate_pure_and_rotates_every_point (w : WasmBezier ℝ) (angle : ℝ) :
    (w.rotate angle).1 = w ∧
    (w.rotate angle).2.inner.get_points =
      w.inner.get_points.map (rotatePoint angle) := by
  refine ⟨rfl, ?_⟩
  rcases w with ⟨b⟩
  rcases b with ⟨p0, p1⟩ | ⟨p0, p1, p2⟩ | ⟨p0, p1, p2, p3⟩ <;> rfl

/-- C3: for every curve and every `t` in `[0, 1]`, `split(t)` returns exactly
two curves of the same degree as the original, and their concatenation
reproduces `evaluate` of the original at every `s` in `[0, 1]`: the first half
at `s` equals the original at `t·s`, the second half at `s` equals the original
at `t + s·(1 − t)` — exactly over the idealised reals, hence within any
floating-point tolerance. -/
theorem split_reconstruction (b : Bezier ℚ) (t s : ℚ)
    (ht : 0 ≤ t ∧ t ≤ 1) (hs : 0 ≤ s ∧ s ≤ 1) :
    ((b.splitAt t).1.degree = b.degree ∧ (b.splitAt t).2.degree = b.degree) ∧
    (b.splitAt t).1.evaluate s = b.evaluate (t * s) ∧
    (b.splitAt t).2.evaluate s = b.evaluate (t + s * (1 - t)) := by
  rcases b with ⟨p0, p1⟩ | ⟨p0, p1, p2⟩ | ⟨p0, p1, p2, p3⟩ <;>
    refine ⟨⟨rfl, rfl⟩, ?_, ?_⟩ <;>
      (apply Vec2.ext <;> (simp only [Bezier.splitAt, Bezier.evaluate, vlerp]; ring))

/-- Witness for C3 at the spec's example cubic, `t = 1/3`, `s = 1/2`. -/
theorem split_reconstruction_witness :
    ((0:ℚ) ≤ 1/3 ∧ (1/3:ℚ) ≤ 1) ∧ ((0:ℚ) ≤ 1/2 ∧ (1/2:ℚ) ≤ 1) ∧
    ((((Bezier.cubic (⟨0, 0⟩ : Vec2 ℚ) ⟨0, 100⟩ ⟨100, 100⟩ ⟨100, 0⟩).splitAt
        (1/3)).1.degree =
      (Bezier.cubic (⟨0, 0⟩ : Vec2 ℚ) ⟨0, 100⟩ ⟨100, 100⟩ ⟨100, 0⟩).degree ∧
      (((Bezier.cubic (⟨0, 0⟩ : Vec2 ℚ) ⟨0, 100⟩ ⟨100, 100⟩ ⟨100, 0⟩).splitAt
        (1/3)).2.degree =
      (Bezier.cubic (⟨0, 0⟩ : Vec2 ℚ) ⟨0, 100⟩ ⟨100, 100⟩ ⟨100, 0⟩).degree)) ∧
     ((Bezier.cubic (⟨0, 0⟩ : Vec2 ℚ) ⟨0, 100⟩ ⟨100, 100⟩ ⟨100, 0⟩).splitAt
        (1/3)).1.evaluate (1/2) =
      (Bezier.cubic (⟨0, 0⟩ : Vec2 ℚ) ⟨0, 100⟩ ⟨100, 100⟩ ⟨100, 0⟩).evaluate
        (1/3 * (1/2)) ∧
     ((Bezier.cubic (⟨0, 0⟩ : Vec2 ℚ) ⟨0, 100⟩ ⟨100, 100⟩ ⟨100, 0⟩).splitAt
        (1/3)).2.evaluate (1/2) =
      (Bezier.cubic (⟨0, 0⟩ : Vec2 ℚ) ⟨0, 100⟩ ⟨100, 100⟩ ⟨100, 0⟩).evaluate
        (1/3 + 1/2 * (1 - 1/3))) :=
  ⟨by norm_num, by norm_num,
    split_reconstruction (.cubic ⟨0, 0⟩ ⟨0, 100⟩ ⟨100, 100⟩ ⟨100, 0⟩) (1/3) (1/2)
      (by norm_num) (by norm_num)⟩

/-- A path element string can never equal a `wrap_svg_tag` result: the one
starts with `<p`, the other with the SVG open tag's `<s`. -/
theorem path_prefix_ne_wrap (u s : String) :
    "<path d=\"" ++ u ≠ wrap_svg_tag s := by
  intro h
  have hd : ("<path d=\"" ++ u).data = (wrap_svg_tag s).data := congrArg String.data h
  simp only [wrap_svg_tag, SVG_OPEN_TAG, SVG_CLOSE_TAG, String.data_append] at hd
  simp at hd

/-- C4: when the engine's `derivative()` returns the none sentinel, the
binding's `derivative()` does not fail the call: it returns the original
curve's path string unchanged, and — unlike every other drawing method — that
early-return string is not wrapped in the SVG open/close tags. -/
theorem derivative_none_returns_unwrapped_path (w : WasmBezier ℚ)
    (h : w.inner.derivativeCurve = none) :
    w.derivative = w.get_bezier_path ∧ ∀ s, w.derivative ≠ wrap_svg_tag s := by
  have h1 : w.derivative = w.get_bezier_path := by
    unfold WasmBezier.derivative
    rw [h]
  refine ⟨h1, fun s hs => ?_⟩
  rw [h1] at hs
  exact path_prefix_ne_wrap _ s hs

/-- Witness for C4 at a concrete linear curve, whose hodograph is the none
sentinel. -/
theorem derivative_none_returns_unwrapped_path_witness :
    (Bezier.linear (⟨0, 0⟩ : Vec2 ℚ) ⟨1, 0⟩).derivativeCurve = none ∧
    (WasmBezier.derivative ⟨.linear ⟨0, 0⟩ ⟨1, 0⟩⟩ =
      WasmBezier.get_bezier_path ⟨.linear ⟨0, 0⟩ ⟨1, 0⟩⟩ ∧
      ∀ s, WasmBezier.derivative ⟨.linear ⟨0, 0⟩ ⟨1, 0⟩⟩ ≠ wrap_svg_tag s) :=
  ⟨rfl, derivative_none_returns_unwrapped_path ⟨.linear ⟨0, 0⟩ ⟨1, 0⟩⟩ rfl⟩

/-- The engine's signed curvature vanishes identically on a straight segment:
at the concrete linear curve (0,0)–(1,0) the cross of first and second
derivative is zero while the first derivative has unit length. -/
theorem curvature_linear_unit_zero :
    Bezier.curvature (.linear ⟨0, 0⟩ ⟨1, 0⟩) 0 = 0 := by
  simp [Bezier.curvature, Bezier.deriv1, Bezier.deriv2, Bezier.derivCoeffs,
    crossV, normSq]

/-- C2 counterexample: the claim "every division in the binding's
`curvature(t)` is guarded against a zero divisor" is false — at the linear
curve (0,0)–(1,0) and `t = 0` the engine's signed curvature, the divisor of
the binding's unconditional `1. / curvature(t)` (bezier.rs line 231), is
exactly zero, and the radius is computed as a literal division by zero. -/
theorem curvature_division_by_zero_counterexample :
    Bezier.curvature (.linear ⟨0, 0⟩ ⟨1, 0⟩) 0 = 0 ∧
    WasmBezier.curvatureRadius ⟨.linear ⟨0, 0⟩ ⟨1, 0⟩⟩ 0 = 1 / (0 : ℝ) := by
  refine ⟨curvature_linear_unit_zero, ?_⟩
  unfold WasmBezier.curvatureRadius
  rw [curvature_linear_unit_zero]

/-- C2 amended: the binding's `curvature(t)` computes the osculating-circle
radius as `1 / curvature(t)` unconditionally, with no zero-divisor guard, and
the divisor really is zero for some curve and parameter (any straight
segment), so the division-by-zero case the spec asks callers to guard reaches
the division (IEEE: an infinite radius). -/
theorem curvature_radius_division_unguarded :
    (∀ (b : Bezier ℝ) (t : ℝ),
      WasmBezier.curvatureRadius ⟨b⟩ t = 1 / b.curvature t) ∧
    (∃ (b : Bezier ℝ) (t : ℝ), b.curvature t = 0) :=
  ⟨fun _ _ => rfl, ⟨.linear ⟨0, 0⟩ ⟨1, 0⟩, 0, curvature_linear_unit_zero⟩⟩

/-- Correctness of the closed-form degree ≤ 2 solver: as long as the
polynomial is not identically zero, the returned list holds exactly the real
roots of `a·x² + b·x + c`. -/
theorem mem_solveQuadratic {a b c : ℝ} (h : ¬(a = 0 ∧ b = 0 ∧ c = 0)) (x : ℝ) :
    x ∈ solveQuadratic a b c ↔ a * x ^ 2 + b * x + c = 0 := by
  by_cases ha : a = 0
  · subst ha
    by_cases hb : b = 0
    · subst hb
      have hc : c ≠ 0 := fun hc => h ⟨rfl, rfl, hc⟩
      simp [solveQuadratic, hc]
    · have hred : solveQuadratic 0 b c = [-c / b] := by
        simp [solveQuadratic, hb]
      rw [hred, List.mem_singleton, eq_div_iff hb]
      constructor
      · intro hx
        linear_combination hx
      · intro hx
        linear_combination hx
  · by_cases hd : discrim a b c < 0
    · have hred : solveQuadratic a b c = [] := by
        simp [solveQuadratic, ha, hd]
      rw [hred]
      simp only [List.not_mem_nil, false_iff]
      intro hroot
      refine quadratic_ne_zero_of_discrim_ne_sq (a := a) (b := b) (c := c)
        (fun s hs => ?_) x (by linear_combination hroot)
      rw [hs] at hd
      exact absurd hd (not_lt.mpr (sq_nonneg s))
    · push_neg at hd
      have hred : solveQuadratic a b c =
          [(-b + Real.sqrt (discrim a b c)) / (2 * a),
           (-b - Real.sqrt (discrim a b c)) / (2 * a)] := by
        simp [solveQuadratic, ha, not_lt.mpr hd]
      have hs : discrim a b c =
          Real.sqrt (discrim a b c) * Real.sqrt (discrim a b c) :=
        (Real.mul_self_sqrt hd).symm
      have hq := quadratic_eq_zero_iff ha hs x
      rw [hred, List.mem_cons, List.mem_singleton]
      constructor
      · intro hx
        linear_combination hq.mpr hx
      · intro hroot
        exact hq.mp (by linear_combination hroot)

/-- C7: for every curve, `local_extrema` returns exactly two lists of
parameter values (a pair): whenever the corresponding derivative component is
not the zero polynomial, the first list holds exactly the roots in `[0, 1]` of
the X component of the derivative and the second exactly those of the Y
component. -/
theorem local_extrema_are_axis_derivative_roots (b : Bezier ℝ) (t : ℝ)
    (hx : ¬(b.derivCoeffs.1.x = 0 ∧ b.derivCoeffs.2.1.x = 0 ∧ b.derivCoeffs.2.2.x = 0))
    (hy : ¬(b.derivCoeffs.1.y = 0 ∧ b.derivCoeffs.2.1.y = 0 ∧ b.derivCoeffs.2.2.y = 0)) :
    (t ∈ b.local_extrema.1 ↔ (b.deriv1 t).x = 0 ∧ 0 ≤ t ∧ t ≤ 1) ∧
    (t ∈ b.local_extrema.2 ↔ (b.deriv1 t).y = 0 ∧ 0 ≤ t ∧ t ≤ 1) := by
  constructor
  · simp only [Bezier.local_extrema, List.mem_filter, decide_eq_true_eq,
      Bezier.deriv1]
    exact and_congr_left' (mem_solveQuadratic hx t)
  · simp only [Bezier.local_extrema, List.mem_filter, decide_eq_true_eq,
      Bezier.deriv1]
    exact and_congr_left' (mem_solveQuadratic hy t)

/-- Witness for C7 at a concrete arch-shaped cubic and `t = 1/2`: both
derivative components are nonzero polynomials there. -/
theorem local_extrema_are_axis_derivative_roots_witness :
    (¬((Bezier.cubic (⟨0, 0⟩ : Vec2 ℝ) ⟨0, 1⟩ ⟨1, 1⟩ ⟨1, 0⟩).derivCoeffs.1.x = 0 ∧
       (Bezier.cubic (⟨0, 0⟩ : Vec2 ℝ) ⟨0, 1⟩ ⟨1, 1⟩ ⟨1, 0⟩).derivCoeffs.2.1.x = 0 ∧
       (Bezier.cubic (⟨0, 0⟩ : Vec2 ℝ) ⟨0, 1⟩ ⟨1, 1⟩ ⟨1, 0⟩).derivCoeffs.2.2.x = 0)) ∧
    (¬((Bezier.cubic (⟨0, 0⟩ : Vec2 ℝ) ⟨0, 1⟩ ⟨1, 1⟩ ⟨1, 0⟩).derivCoeffs.1.y = 0 ∧
       (Bezier.cubic (⟨0, 0⟩ : Vec2 ℝ) ⟨0, 1⟩ ⟨1, 1⟩ ⟨1, 0⟩).derivCoeffs.2.1.y = 0 ∧
       (Bezier.cubic (⟨0, 0⟩ : Vec2 ℝ) ⟨0, 1⟩ ⟨1, 1⟩ ⟨1, 0⟩).derivCoeffs.2.2.y = 0)) ∧
    (((1 / 2 : ℝ) ∈ (Bezier.cubic (⟨0, 0⟩ : Vec2 ℝ) ⟨0, 1⟩ ⟨1, 1⟩ ⟨1, 0⟩).local_extrema.1 ↔
        ((Bezier.cubic (⟨0, 0⟩ : Vec2 ℝ) ⟨0, 1⟩ ⟨1, 1⟩ ⟨1, 0⟩).deriv1 (1 / 2)).x = 0 ∧
          (0 : ℝ) ≤ 1 / 2 ∧ (1 / 2 : ℝ) ≤ 1) ∧
     ((1 / 2 : ℝ) ∈ (Bezier.cubic (⟨0, 0⟩ : Vec2 ℝ) ⟨0, 1⟩ ⟨1, 1⟩ ⟨1, 0⟩).local_extrema.2 ↔
        ((Bezier.cubic (⟨0, 0⟩ : Vec2 ℝ) ⟨0, 1⟩ ⟨1, 1⟩ ⟨1, 0⟩).deriv1 (1 / 2)).y = 0 ∧
          (0 : ℝ) ≤ 1 / 2 ∧ (1 / 2 : ℝ) ≤ 1)) := by
  have hx : ¬((Bezier.cubic (⟨0, 0⟩ : Vec2 ℝ) ⟨0, 1⟩ ⟨1, 1⟩ ⟨1, 0⟩).derivCoeffs.1.x = 0 ∧
      (Bezier.cubic (⟨0, 0⟩ : Vec2 ℝ) ⟨0, 1⟩ ⟨1, 1⟩ ⟨1, 0⟩).derivCoeffs.2.1.x = 0 ∧
      (Bezier.cubic (⟨0, 0⟩ : Vec2 ℝ) ⟨0, 1⟩ ⟨1, 1⟩ ⟨1, 0⟩).derivCoeffs.2.2.x = 0) := by
    norm_num [Bezier.derivCoeffs]
  have hy : ¬((Bezier.cubic (⟨0, 0⟩ : Vec2 ℝ) ⟨0, 1⟩ ⟨1, 1⟩ ⟨1, 0⟩).derivCoeffs.1.y = 0 ∧
      (Bezier.cubic (⟨0, 0⟩ : Vec2 ℝ) ⟨0, 1⟩ ⟨1, 1⟩ ⟨1, 0⟩).derivCoeffs.2.1.y = 0 ∧
      (Bezier.cubic (⟨0, 0⟩ : Vec2 ℝ) ⟨0, 1⟩ ⟨1, 1⟩ ⟨1, 0⟩).derivCoeffs.2.2.y = 0) := by
    norm_num [Bezier.derivCoeffs]
  exact ⟨hx, hy,
    local_extrema_are_axis_derivative_roots
      (Bezier.cubic ⟨0, 0⟩ ⟨0, 1⟩ ⟨1, 1⟩ ⟨1, 0⟩) (1 / 2) hx hy⟩

/-- Evaluating the hodograph curve agrees with the closed-form derivative
coefficients: the two spec-modelled presentations of the first derivative are
consistent. -/
theorem derivativeCurve_evaluate_eq_deriv1 (b d : Bezier ℚ) (t : ℚ)
    (h : b.derivativeCurve = some d) : d.evaluate t = b.deriv1 t := by
  rcases b with ⟨p0, p1⟩ | ⟨p0, p1, p2⟩ | ⟨p0, p1, p2, p3⟩
  · exact absurd h (by simp [Bezier.derivativeCurve])
  · rw [Bezier.derivativeCurve] at h
    injection h with h
    subst h
    apply Vec2.ext <;>
      (simp only [Bezier.evaluate, vlerp, Bezier.deriv1, Bezier.derivCoeffs]; ring)
  · rw [Bezier.derivativeCurve] at h
    injection h with h
    subst h
    apply Vec2.ext <;>
      (simp only [Bezier.evaluate, vlerp, Bezier.deriv1, Bezier.derivCoeffs]; ring)

/-- Derivative of an explicit cubic polynomial. -/
theorem hasDerivAt_cubicPoly (c3 c2 c1 c0 t : ℝ) :
    HasDerivAt (fun u : ℝ => c3 * u ^ 3 + c2 * u ^ 2 + c1 * u + c0)
      (3 * c3 * t ^ 2 + 2 * c2 * t + c1) t := by
  have h3 : HasDerivAt (fun u : ℝ => u ^ 3) (3 * t ^ 2) t := by
    simpa using hasDerivAt_pow 3 t
  have h2 : HasDerivAt (fun u : ℝ => u ^ 2) (2 * t) t := by
    simpa using hasDerivAt_pow 2 t
  have h1 : HasDerivAt (fun u : ℝ => u) 1 t := hasDerivAt_id t
  have hall :=
    ((h3.const_mul c3).add (h2.const_mul c2)).add ((h1.const_mul c1).add_const c0)
  have hfun : (fun u : ℝ => c3 * u ^ 3 + c2 * u ^ 2 + c1 * u + c0) =
      (fun u : ℝ => (c3 * u ^ 3 + c2 * u ^ 2) + (c1 * u + c0)) := by
    funext u
    ring
  rw [hfun]
  convert hall using 1
  ring

/-- The closed-form derivative coefficients really are the calculus derivative
of the de Casteljau `evaluate`, component-wise, grounding `deriv1` (and hence
`curvature` and `local_extrema`) in the evaluation model. -/
theorem evaluate_hasDerivAt (b : Bezier ℝ) (t : ℝ) :
    HasDerivAt (fun u => (b.evaluate u).x) ((b.deriv1 t).x) t ∧
    HasDerivAt (fun u => (b.evaluate u).y) ((b.deriv1 t).y) t := by
  rcases b with ⟨p0, p1⟩ | ⟨p0, p1, p2⟩ | ⟨p0, p1, p2, p3⟩
  · constructor
    · have h := hasDerivAt_cubicPoly 0 0 (p1.x - p0.x) p0.x t
      have hfun : (fun u : ℝ => ((Bezier.linear p0 p1).evaluate u).x) =
          (fun u : ℝ => 0 * u ^ 3 + 0 * u ^ 2 + (p1.x - p0.x) * u + p0.x) := by
        funext u
        simp only [Bezier.evaluate, vlerp]
        ring
      have hval : ((Bezier.linear p0 p1).deriv1 t).x =
          3 * 0 * t ^ 2 + 2 * 0 * t + (p1.x - p0.x) := by
        simp only [Bezier.deriv1, Bezier.derivCoeffs]
        ring
      rw [hfun, hval]
      exact h
    · have h := hasDerivAt_cubicPoly 0 0 (p1.y - p0.y) p0.y t
      have hfun : (fun u : ℝ => ((Bezier.linear p0 p1).evaluate u).y) =
          (fun u : ℝ => 0 * u ^ 3 + 0 * u ^ 2 + (p1.y - p0.y) * u + p0.y) := by
        funext u
        simp only [Bezier.evaluate, vlerp]
        ring
      have hval : ((Bezier.linear p0 p1).deriv1 t).y =
          3 * 0 * t ^ 2 + 2 * 0 * t + (p1.y - p0.y) := by
        simp only [Bezier.deriv1, Bezier.derivCoeffs]
        ring
      rw [hfun, hval]
      exact h
  · constructor
    · have h := hasDerivAt_cubicPoly 0 (p0.x - 2 * p1.x + p2.x) (2 * (p1.x - p0.x)) p0.x t
      have hfun : (fun u : ℝ => ((Bezier.quadratic p0 p1 p2).evaluate u).x) =
          (fun u : ℝ => 0 * u ^ 3 + (p0.x - 2 * p1.x + p2.x) * u ^ 2 +
            2 * (p1.x - p0.x) * u + p0.x) := by
        funext u
        simp only [Bezier.evaluate, vlerp]
        ring
      have hval : ((Bezier.quadratic p0 p1 p2).deriv1 t).x =
          3 * 0 * t ^ 2 + 2 * (p0.x - 2 * p1.x + p2.x) * t + 2 * (p1.x - p0.x) := by
        simp only [Bezier.deriv1, Bezier.derivCoeffs]
        ring
      rw [hfun, hval]
      exact h
    · have h := hasDerivAt_cubicPoly 0 (p0.y - 2 * p1.y + p2.y) (2 * (p1.y - p0.y)) p0.y t
      have hfun : (fun u : ℝ => ((Bezier.quadratic p0 p1 p2).evaluate u).y) =
          (fun u : ℝ => 0 * u ^ 3 + (p0.y - 2 * p1.y + p2.y) * u ^ 2 +
            2 * (p1.y - p0.y) * u + p0.y) := by
        funext u
        simp only [Bezier.evaluate, vlerp]
        ring
      have hval : ((Bezier.quadratic p0 p1 p2).deriv1 t).y =
          3 * 0 * t ^ 2 + 2 * (p0.y - 2 * p1.y + p2.y) * t + 2 * (p1.y - p0.y) := by
        simp only [Bezier.deriv1, Bezier.derivCoeffs]
        ring
      rw [hfun, hval]
      exact h
  · constructor
    · have h := hasDerivAt_cubicPoly (-p0.x + 3 * p1.x - 3 * p2.x + p3.x)
        (3 * (p0.x - 2 * p1.x + p2.x)) (3 * (p1.x - p0.x)) p0.x t
      have hfun : (fun u : ℝ => ((Bezier.cubic p0 p1 p2 p3).evaluate u).x) =
          (fun u : ℝ => (-p0.x + 3 * p1.x - 3 * p2.x + p3.x) * u ^ 3 +
            3 * (p0.x - 2 * p1.x + p2.x) * u ^ 2 + 3 * (p1.x - p0.x) * u + p0.x) := by
        funext u
        simp only [Bezier.evaluate, vlerp]
        ring
      have hval : ((Bezier.cubic p0 p1 p2 p3).deriv1 t).x =
          3 * (-p0.x + 3 * p1.x - 3 * p2.x + p3.x) * t ^ 2 +
            2 * (3 * (p0.x - 2 * p1.x + p2.x)) * t + 3 * (p1.x - p0.x) := by
        simp only [Bezier.deriv1, Bezier.derivCoeffs]
        ring
      rw [hfun, hval]
      exact h
    · have h := hasDerivAt_cubicPoly (-p0.y + 3 * p1.y - 3 * p2.y + p3.y)
        (3 * (p0.y - 2 * p1.y + p2.y)) (3 * (p1.y - p0.y)) p0.y t
      have hfun : (fun u : ℝ => ((Bezier.cubic p0 p1 p2 p3).evaluate u).y) =
          (fun u : ℝ => (-p0.y + 3 * p1.y - 3 * p2.y + p3.y) * u ^ 3 +
            3 * (p0.y - 2 * p1.y + p2.y) * u ^ 2 + 3 * (p1.y - p0.y) * u + p0.y) := by
        funext u
        simp only [Bezier.evaluate, vlerp]
        ring
      have hval : ((Bezier.cubic p0 p1 p2 p3).deriv1 t).y =
          3 * (-p0.y + 3 * p1.y - 3 * p2.y + p3.y) * t ^ 2 +
            2 * (3 * (p0.y - 2 * p1.y + p2.y)) * t + 3 * (p1.y - p0.y) := by
        simp only [Bezier.deriv1, Bezier.derivCoeffs]
        ring
      rw [hfun, hval]
      exact h

example :
    (Bezier.cubic (⟨0, 0⟩ : Vec2 ℚ) ⟨0, 100⟩ ⟨100, 100⟩ ⟨100, 0⟩).evaluate (1/2) =
      ⟨50, 75⟩ := by
  apply Vec2.ext <;> (simp only [Bezier.evaluate, vlerp]; norm_num)

example :
    (Bezier.cubic (⟨0, 0⟩ : Vec2 ℚ) ⟨0, 100⟩ ⟨100, 100⟩ ⟨100, 0⟩).evaluate 0 = ⟨0, 0⟩ := by
  apply Vec2.ext <;> (simp only [Bezier.evaluate, vlerp]; norm_num)

example :
    (Bezier.cubic (⟨0, 0⟩ : Vec2 ℚ) ⟨0, 100⟩ ⟨100, 100⟩ ⟨100, 0⟩).evaluate 1 =
      ⟨100, 0⟩ := by
  apply Vec2.ext <;> (simp only [Bezier.evaluate, vlerp]; norm_num)

example :
    ((Bezier.cubic (⟨0, 0⟩ : Vec2 ℚ) ⟨0, 100⟩ ⟨100, 100⟩ ⟨100, 0⟩).de_casteljau_points
      (1/2)).map List.length = [4, 3, 2, 1] := by
  rfl

example : WasmBezier.new_linear [⟨0, 0⟩, ⟨1, 1⟩] = some ⟨.linear ⟨0, 0⟩ ⟨1, 1⟩⟩ := by
  rfl

example : Json.print (jsonOfPoint ⟨1, 2⟩) = "\x7b\"x\":1,\"y\":2\x7d" := by
  rfl

example :
    to_js_value (.arr [jsonOfPair (1, 2)]) = Json.str "[[1,2]]" := by
  rfl

end BezierWasm
